import Mathlib

/-!
Verification development for the Mastra AI-tracing core and the Langfuse
exporter: a shallow embedding of the span data model (`types.ts`), the
no-op span implementation (`NoOpAISpan`), the global tracing registry
(`registry.ts`) and the Langfuse exporter (`observability/langfuse/src/ai-tracing.ts`),
together with theorems about the properties stated in the specification.
-/

set_option linter.unusedVariables false

/-- Model of a JavaScript runtime value as it can occur in a span's free-form
`attributes` record (`Record<string, any>`).  The `bigint` constructor models
the values on which `JSON.stringify` throws a `TypeError`; the remaining
constructors are the plain JSON-representable values.  (Cyclic object graphs,
the other source of `JSON.stringify` exceptions, cannot arise in an inductive
value and are therefore not modelled.) -/
inductive JSValue : Type where
  | null : JSValue
  | bool (b : Bool) : JSValue
  | num (n : Int) : JSValue
  | str (s : String) : JSValue
  | arr (elems : List JSValue) : JSValue
  | obj (fields : List (String × JSValue)) : JSValue
  | bigint (n : Int) : JSValue

mutual

/-- Whether `JSON.stringify(value)` completes without throwing: it throws
exactly when a `bigint` occurs somewhere in the value. -/
def jsonStringifyOk : JSValue → Bool
  | JSValue.null => true
  | JSValue.bool _ => true
  | JSValue.num _ => true
  | JSValue.str _ => true
  | JSValue.bigint _ => false
  | JSValue.arr xs => jsonStringifyOkList xs
  | JSValue.obj fs => jsonStringifyOkFields fs

/-- `jsonStringifyOk` on every element of an array value. -/
def jsonStringifyOkList : List JSValue → Bool
  | [] => true
  | v :: vs => jsonStringifyOk v && jsonStringifyOkList vs

/-- `jsonStringifyOk` on every field value of an object value. -/
def jsonStringifyOkFields : List (String × JSValue) → Bool
  | [] => true
  | kv :: rest => jsonStringifyOk kv.2 && jsonStringifyOkFields rest

end

/-- `LangfuseExporter.isSerializable`:
`try { JSON.stringify(value); return true } catch { return false }`. -/
def isSerializable (value : JSValue) : Bool :=
  jsonStringifyOk value

/-- `LangfuseExporter.sanitizeMetadata`: returns `{}` for an absent record and
otherwise copies, in iteration order, exactly the entries whose value passes
`isSerializable` into a fresh record (modelled as the `foldl` accumulation of
the source's `for (const [key, value] of Object.entries(metadata))` loop). -/
def sanitizeMetadata (metadata : Option (List (String × JSValue))) : List (String × JSValue) :=
  match metadata with
  | none => []
  | some m =>
    m.foldl (fun sanitized kv => if isSerializable kv.2 then sanitized ++ [kv] else sanitized) []

-- ============================================================================
-- Association-list maps, modelling JavaScript `Map<string, _>` objects
-- ============================================================================

/-- `Map.get(k)`: the value of the first entry whose key is `k`. -/
def mapGet? {α : Type} (m : List (String × α)) (k : String) : Option α :=
  match m with
  | [] => none
  | kv :: rest => if kv.1 = k then some kv.2 else mapGet? rest k

/-- `Map.has(k)`. -/
def mapHas {α : Type} (m : List (String × α)) (k : String) : Bool :=
  (mapGet? m k).isSome

/-- `Map.set(k, v)`: replaces the value in place when the key is present
(JavaScript maps keep the original insertion position), and appends a new
entry otherwise. -/
def mapSet {α : Type} (m : List (String × α)) (k : String) (v : α) : List (String × α) :=
  if mapHas m k then m.map (fun kv => if kv.1 = k then (k, v) else kv)
  else m ++ [(k, v)]

/-- `Map.delete(k)` (the resulting map). -/
def mapDelete {α : Type} (m : List (String × α)) (k : String) : List (String × α) :=
  m.filter (fun kv => kv.1 ≠ k)

-- Basic lemmas about the map model.

theorem mapGet?_map_update {α : Type} (m : List (String × α)) (k : String) (v : α) :
    mapGet? (m.map (fun kv => if kv.1 = k then (k, v) else kv)) k =
      if mapHas m k then some v else none := by
  induction m with
  | nil => simp [mapGet?, mapHas]
  | cons hd tl ih =>
    by_cases h : hd.1 = k
    · simp [mapGet?, mapHas, h]
    · simp only [List.map_cons, if_neg h, mapGet?, mapHas] at *
      simp [mapGet?, h, ih, mapHas]

theorem mapGet?_append {α : Type} (m l : List (String × α)) (k : String)
    (h : mapGet? m k = none) : mapGet? (m ++ l) k = mapGet? l k := by
  induction m with
  | nil => simp
  | cons hd tl ih =>
    by_cases hk : hd.1 = k
    · simp [mapGet?, hk] at h
    · simp only [mapGet?, if_neg hk] at h
      simpa [mapGet?, hk] using ih h

theorem mapGet?_set_self {α : Type} (m : List (String × α)) (k : String) (v : α) :
    mapGet? (mapSet m k v) k = some v := by
  unfold mapSet
  by_cases h : mapHas m k
  · simp [h, mapGet?_map_update]
  · have hn : mapGet? m k = none := by
      unfold mapHas at h
      cases hm : mapGet? m k with
      | none => rfl
      | some _ => simp [hm] at h
    simp [h, mapGet?_append m _ k hn, mapGet?]

theorem mapHas_set_self {α : Type} (m : List (String × α)) (k : String) (v : α) :
    mapHas (mapSet m k v) k = true := by
  simp [mapHas, mapGet?_set_self]

theorem mapGet?_delete_self {α : Type} (m : List (String × α)) (k : String) :
    mapGet? (mapDelete m k) k = none := by
  induction m with
  | nil => rfl
  | cons hd tl ih =>
    by_cases h : hd.1 = k
    · simpa [mapDelete, h] using ih
    · simpa [mapDelete, mapGet?, h] using ih

-- Helper lemmas about sanitization.

theorem sanitize_foldl_filter (m : List (String × JSValue)) (acc : List (String × JSValue)) :
    m.foldl (fun sanitized kv => if isSerializable kv.2 then sanitized ++ [kv] else sanitized) acc =
      acc ++ m.filter (fun kv => isSerializable kv.2) := by
  induction m generalizing acc with
  | nil => simp
  | cons hd tl ih =>
    by_cases h : isSerializable hd.2
    · simp [List.foldl_cons, h, ih, List.filter_cons]
    · simp [List.foldl_cons, h, ih, List.filter_cons]

theorem sanitizeMetadata_eq_filter (m : List (String × JSValue)) :
    sanitizeMetadata (some m) = m.filter (fun kv => isSerializable kv.2) := by
  simpa using sanitize_foldl_filter m []

/-- **C6.** Sanitization of a free-form attribute map keeps exactly the
entries whose value passes the serializability check (`JSON.stringify` does
not throw) and drops the rest instead of failing; it is idempotent, and a
value that fails the check is excluded from the result on every application. -/
theorem sanitizeMetadata_filter_and_idempotent
    (m : List (String × JSValue)) (mo : Option (List (String × JSValue)))
    (k : String) (v : JSValue) :
    sanitizeMetadata (some m) = m.filter (fun kv => isSerializable kv.2)
    ∧ sanitizeMetadata (some (sanitizeMetadata mo)) = sanitizeMetadata mo
    ∧ (isSerializable v = false → (k, v) ∉ sanitizeMetadata mo) := by
  refine ⟨sanitizeMetadata_eq_filter m, ?_, ?_⟩
  · cases mo with
    | none => simp [sanitizeMetadata]
    | some l =>
      rw [sanitizeMetadata_eq_filter l, sanitizeMetadata_eq_filter]
      simp [List.filter_filter]
  · intro hv hmem
    cases mo with
    | none => simp [sanitizeMetadata] at hmem
    | some l =>
      rw [sanitizeMetadata_eq_filter l] at hmem
      have := List.of_mem_filter hmem
      simp [hv] at this

/-- Witness for C6: on the concrete map `{a: "x", b: 7n}` (where `7n` is a
bigint), the bigint entry is dropped, sanitization is idempotent, and the
bigint entry is never a member of the output. -/
theorem sanitizeMetadata_filter_and_idempotent_witness :
    sanitizeMetadata (some [("a", JSValue.str "x"), ("b", JSValue.bigint 7)]) =
      [("a", JSValue.str "x"), ("b", JSValue.bigint 7)].filter (fun kv => isSerializable kv.2)
    ∧ sanitizeMetadata (some (sanitizeMetadata (some [("a", JSValue.str "x"), ("b", JSValue.bigint 7)]))) =
        sanitizeMetadata (some [("a", JSValue.str "x"), ("b", JSValue.bigint 7)])
    ∧ ("b", JSValue.bigint 7) ∉ sanitizeMetadata (some [("a", JSValue.str "x"), ("b", JSValue.bigint 7)]) := by
  have h := sanitizeMetadata_filter_and_idempotent
    [("a", JSValue.str "x"), ("b", JSValue.bigint 7)]
    (some [("a", JSValue.str "x"), ("b", JSValue.bigint 7)]) "b" (JSValue.bigint 7)
  exact ⟨h.1, h.2.1, h.2.2 rfl⟩

-- ============================================================================
-- Span data model (`packages/core/src/ai-tracing/types.ts`)
-- ============================================================================

/-- `AISpanType`: the closed enumeration of AI span kinds (string-valued in
the source). -/
inductive AISpanType : Type where
  | agent_run : AISpanType
  | generic : AISpanType
  | llm_generation : AISpanType
  | mcp_tool_call : AISpanType
  | tool_call : AISpanType
  | workflow_run : AISpanType
  | workflow_step : AISpanType
deriving DecidableEq

/-- The string value of an `AISpanType` enum member. -/
def AISpanType.toStr : AISpanType → String
  | .agent_run => "agent_run"
  | .generic => "generic"
  | .llm_generation => "llm_generation"
  | .mcp_tool_call => "mcp_tool_call"
  | .tool_call => "tool_call"
  | .workflow_run => "workflow_run"
  | .workflow_step => "workflow_step"

/-- Token usage statistics of `LLMGenerationMetadata.usage`. -/
structure LLMUsage where
  promptTokens : Option Int := none
  completionTokens : Option Int := none
  totalTokens : Option Int := none
  promptCacheHitTokens : Option Int := none
  promptCacheMissTokens : Option Int := none

/-- Model parameters of `LLMGenerationMetadata.parameters` (numeric values
are carried opaquely as `JSValue`). -/
structure LLMParameters where
  temperature : Option JSValue := none
  maxTokens : Option JSValue := none
  topP : Option JSValue := none
  frequencyPenalty : Option JSValue := none
  presencePenalty : Option JSValue := none
  stop : Option (List String) := none

/-- Span metadata, flattened over the type-discriminated union of
`AISpanTypeMap`: every type-specific field appears as an optional field, which
mirrors how the exporter reads them through `span.metadata as any`.  The
common base fields `tags` and `attributes` come from `AIBaseMetadata`. -/
structure SpanMetadata where
  tags : Option (List String) := none
  attributes : Option (List (String × JSValue)) := none
  agentId : Option String := none
  instructions : Option String := none
  prompt : Option String := none
  availableTools : Option (List String) := none
  maxSteps : Option Int := none
  currentStep : Option JSValue := none
  model : Option String := none
  provider : Option String := none
  resultType : Option String := none
  usage : Option LLMUsage := none
  parameters : Option LLMParameters := none
  streaming : Option Bool := none
  toolId : Option String := none
  toolType : Option JSValue := none
  success : Option Bool := none
  mcpServer : Option String := none
  serverVersion : Option String := none
  workflowId : Option String := none
  stepId : Option String := none
  status : Option String := none

/-- `AISpan.errorInfo`: message plus optional classification fields. -/
structure ErrorInfo where
  message : String
  id : Option String := none
  domain : Option String := none
  category : Option String := none
  details : Option (List (String × JSValue)) := none

/-- The full span snapshot that an `AITracingEvent` carries to an exporter:
the fields of the `AISpan` interface that the Langfuse exporter reads.
`traceRefId` is `span.trace.id` (the id of the root span of the span's trace)
and `parentId` is `span.parent?.id`; `isRootSpan` is derived below exactly as
the source getter `!this.parent`.  (`startTime` is a wall-clock `Date` and is
not modelled; `endTime` is modelled as an opaque timestamp.) -/
structure SpanSnapshot where
  id : String
  name : String
  type : AISpanType
  traceRefId : String
  parentId : Option String := none
  metadata : SpanMetadata := {}
  input : Option JSValue := none
  output : Option JSValue := none
  endTime : Option Nat := none
  errorInfo : Option ErrorInfo := none

/-- `AISpan.isRootSpan` getter: `!this.parent`. -/
def SpanSnapshot.isRootSpan (s : SpanSnapshot) : Bool :=
  s.parentId.isNone

/-- `AITracingEvent`: the tagged union of lifecycle events delivered to
exporters, each carrying the full span snapshot. -/
inductive AITracingEvent : Type where
  | span_started (span : SpanSnapshot) : AITracingEvent
  | span_updated (span : SpanSnapshot) : AITracingEvent
  | span_ended (span : SpanSnapshot) : AITracingEvent

-- ============================================================================
-- `NoOpAISpan` (`types.ts`, lines 384-446)
-- ============================================================================

/-- `NoOpAISpan`: the placeholder span returned when sampling rejects a trace
or tracing is disabled.  The constructor-assigned constant fields `id`
(`'no-op'`) and `traceId` (`'no-op-trace'`) are exposed as accessors below;
the `trace` field, assigned in the constructor as
`options.parent ? options.parent.trace : this`, is exposed as the recursive
accessor `NoOpAISpan.trace` (the parent chain is immutable, so the stored
reference always equals this recursion).  `startTime` (`new Date()`) is a
wall-clock value and is not modelled; the never-assigned declared fields
`output`, `endTime` and `errorInfo` are carried so that the frame conditions
of the mutating operations can be stated. -/
inductive NoOpAISpan : Type where
  | mk (name : String) (type : AISpanType) (metadata : SpanMetadata)
       (input : Option JSValue) (output : Option JSValue)
       (endTime : Option Nat) (errorInfo : Option ErrorInfo)
       (parent : Option NoOpAISpan) : NoOpAISpan

/-- `NoOpAISpan.id`: the constructor assigns the constant `'no-op'`. -/
def NoOpAISpan.id (_s : NoOpAISpan) : String := "no-op"

/-- `NoOpAISpan.traceId`: the constructor assigns the constant `'no-op-trace'`. -/
def NoOpAISpan.traceId (_s : NoOpAISpan) : String := "no-op-trace"

/-- Field accessor for `name`. -/
def NoOpAISpan.name : NoOpAISpan → String
  | .mk n _ _ _ _ _ _ _ => n

/-- Field accessor for `type`. -/
def NoOpAISpan.type : NoOpAISpan → AISpanType
  | .mk _ t _ _ _ _ _ _ => t

/-- Field accessor for `metadata`. -/
def NoOpAISpan.metadata : NoOpAISpan → SpanMetadata
  | .mk _ _ m _ _ _ _ _ => m

/-- Field accessor for `input`. -/
def NoOpAISpan.input : NoOpAISpan → Option JSValue
  | .mk _ _ _ i _ _ _ _ => i

/-- Field accessor for `output`. -/
def NoOpAISpan.output : NoOpAISpan → Option JSValue
  | .mk _ _ _ _ o _ _ _ => o

/-- Field accessor for `endTime`. -/
def NoOpAISpan.endTime : NoOpAISpan → Option Nat
  | .mk _ _ _ _ _ e _ _ => e

/-- Field accessor for `errorInfo`. -/
def NoOpAISpan.errorInfo : NoOpAISpan → Option ErrorInfo
  | .mk _ _ _ _ _ _ er _ => er

/-- Field accessor for `parent`. -/
def NoOpAISpan.parent : NoOpAISpan → Option NoOpAISpan
  | .mk _ _ _ _ _ _ _ p => p

/-- `NoOpAISpan.isRootSpan` getter: `return !this.parent`. -/
def NoOpAISpan.isRootSpan (s : NoOpAISpan) : Bool :=
  s.parent.isNone

/-- The constructor assignment
`this.trace = options.parent ? options.parent.trace : (this as any)`,
unrolled along the (immutable) parent chain. -/
def NoOpAISpan.trace : NoOpAISpan → NoOpAISpan
  | .mk n t m i o e er none => .mk n t m i o e er none
  | .mk _ _ _ _ _ _ _ (some p) => NoOpAISpan.trace p

/-- `AISpanOptions`: options for span creation. -/
structure AISpanOptions where
  name : String
  type : AISpanType
  input : Option JSValue := none
  metadata : Option SpanMetadata := none
  parent : Option NoOpAISpan := none

/-- The `NoOpAISpan` constructor: `id = 'no-op'`, `metadata = options.metadata || {}`,
`parent = options.parent`, `input = options.input`; `output`/`endTime`/`errorInfo`
are never assigned. -/
def NoOpAISpan.create (options : AISpanOptions) : NoOpAISpan :=
  .mk options.name options.type (options.metadata.getD {}) options.input
      none none none options.parent

/-- Options of `createChildSpan` (`{ type, name, input?, metadata? }`). -/
structure ChildSpanOptions where
  type : AISpanType
  name : String
  input : Option JSValue := none
  metadata : Option SpanMetadata := none

/-- `NoOpAISpan.createChildSpan`:
`return new NoOpAISpan({ ...options, parent: this }, this.aiTracing)`.
The second component of the result is the list of exporter events emitted by
the call (empty: the no-op constructor performs no tracing calls). -/
def NoOpAISpan.createChildSpan (s : NoOpAISpan) (options : ChildSpanOptions) :
    NoOpAISpan × List AITracingEvent :=
  (NoOpAISpan.create
    { name := options.name, type := options.type, input := options.input,
      metadata := options.metadata, parent := some s }, [])

/-- Options of `end` (`{ output?, metadata? }`). -/
structure EndSpanOptions where
  output : Option JSValue := none
  metadata : Option SpanMetadata := none

/-- Options of `update` (`{ input?, output?, metadata? }`). -/
structure UpdateSpanOptions where
  input : Option JSValue := none
  output : Option JSValue := none
  metadata : Option SpanMetadata := none

/-- Options of `error` (`{ error, metadata?, endSpan? }`). -/
structure ErrorSpanOptions where
  error : ErrorInfo
  metadata : Option SpanMetadata := none
  endSpan : Option Bool := none

/-- `NoOpAISpan.end`: an empty method body — the span is returned unchanged
and no event is emitted. -/
def NoOpAISpan.endSpan (s : NoOpAISpan) (_options : Option EndSpanOptions) :
    NoOpAISpan × List AITracingEvent :=
  (s, [])

/-- `NoOpAISpan.error`: an empty method body — the span is returned unchanged
(in particular `errorInfo` stays unset) and no event is emitted. -/
def NoOpAISpan.error (s : NoOpAISpan) (_options : ErrorSpanOptions) :
    NoOpAISpan × List AITracingEvent :=
  (s, [])

/-- `NoOpAISpan.update`: an empty method body — the span is returned unchanged
and no event is emitted. -/
def NoOpAISpan.update (s : NoOpAISpan) (_options : Option UpdateSpanOptions) :
    NoOpAISpan × List AITracingEvent :=
  (s, [])

/-- The strict-descendant relation generated by the `parent` field:
`DescendantOf s r` holds when `r` is reachable from `s` by following one or
more `parent` links. -/
inductive DescendantOf : NoOpAISpan → NoOpAISpan → Prop where
  | direct {s p : NoOpAISpan} : s.parent = some p → DescendantOf s p
  | step {s p r : NoOpAISpan} : s.parent = some p → DescendantOf p r → DescendantOf s r

theorem NoOpAISpan.trace_of_parent_none {s : NoOpAISpan} (h : s.parent = none) :
    s.trace = s := by
  cases s with
  | mk n t m i o e er p =>
    simp [NoOpAISpan.parent] at h
    subst h
    rfl

theorem NoOpAISpan.trace_of_parent_some {s p : NoOpAISpan} (h : s.parent = some p) :
    s.trace = p.trace := by
  cases s with
  | mk n t m i o e er q =>
    simp [NoOpAISpan.parent] at h
    subst h
    rfl

/-- **C1.** For every span, `isRootSpan` is true iff the span has no parent;
a span constructed without a parent has `trace` equal to itself, and a span
constructed with a parent has `trace` equal to its parent's `trace`; hence
every descendant of a parentless (root) span has that root as its `trace`
reference. -/
theorem noOpSpan_root_and_trace_invariant :
    (∀ s : NoOpAISpan, s.isRootSpan = true ↔ s.parent = none)
    ∧ (∀ o : AISpanOptions, o.parent = none →
        (NoOpAISpan.create o).trace = NoOpAISpan.create o)
    ∧ (∀ (o : AISpanOptions) (p : NoOpAISpan), o.parent = some p →
        (NoOpAISpan.create o).trace = p.trace)
    ∧ (∀ (s r : NoOpAISpan), DescendantOf s r → r.parent = none → s.trace = r) := by
  refine ⟨?_, ?_, ?_, ?_⟩
  · intro s
    simp [NoOpAISpan.isRootSpan, Option.isNone_iff_eq_none]
  · intro o h
    apply NoOpAISpan.trace_of_parent_none
    simp [NoOpAISpan.create, NoOpAISpan.parent, h]
  · intro o p h
    apply NoOpAISpan.trace_of_parent_some
    simp [NoOpAISpan.create, NoOpAISpan.parent, h]
  · intro s r hdesc hroot
    induction hdesc with
    | direct hp =>
      rename_i s' p'
      rw [NoOpAISpan.trace_of_parent_some hp, NoOpAISpan.trace_of_parent_none hroot]
    | step hp _ ih =>
      rw [NoOpAISpan.trace_of_parent_some hp, ih hroot]

/-- A concrete rejected root span. -/
def c1Root : NoOpAISpan :=
  NoOpAISpan.create { name := "agent run", type := AISpanType.agent_run }

/-- A concrete child of `c1Root`. -/
def c1Child : NoOpAISpan :=
  (c1Root.createChildSpan { type := AISpanType.llm_generation, name := "llm call" }).1

/-- A concrete grandchild of `c1Root`. -/
def c1Grandchild : NoOpAISpan :=
  (c1Child.createChildSpan { type := AISpanType.tool_call, name := "tool call" }).1

/-- Witness for C1 at a concrete two-level hierarchy: the root is a root span,
the grandchild is not, and both the child's and the grandchild's `trace`
references resolve to the root. -/
theorem noOpSpan_root_and_trace_invariant_witness :
    c1Root.isRootSpan = true
    ∧ c1Grandchild.isRootSpan = false
    ∧ c1Root.trace = c1Root
    ∧ c1Child.trace = c1Root
    ∧ c1Grandchild.trace = c1Root := by
  have h := noOpSpan_root_and_trace_invariant
  have hrootparent : c1Root.parent = none := rfl
  have hroot : c1Root.isRootSpan = true := (h.1 c1Root).mpr hrootparent
  have hchild : DescendantOf c1Child c1Root := DescendantOf.direct rfl
  have hgrand : DescendantOf c1Grandchild c1Root :=
    DescendantOf.step (p := c1Child) rfl hchild
  refine ⟨hroot, rfl, ?_, ?_, ?_⟩
  · exact NoOpAISpan.trace_of_parent_none hrootparent
  · exact h.2.2.2 c1Child c1Root hchild hrootparent
  · exact h.2.2.2 c1Grandchild c1Root hgrand hrootparent

/-- **C4.** A no-op span has `id = "no-op"`, and each of its mutating
operations `end`, `update` and `error` is a true no-op: with any arguments it
returns the span with every field unchanged and emits no event. -/
theorem noOpSpan_mutators_are_noops
    (s : NoOpAISpan) (eo : Option EndSpanOptions)
    (uo : Option UpdateSpanOptions) (ro : ErrorSpanOptions) :
    s.id = "no-op"
    ∧ s.endSpan eo = (s, [])
    ∧ s.update uo = (s, [])
    ∧ s.error ro = (s, []) :=
  ⟨rfl, rfl, rfl, rfl⟩

/-- Iterated child creation: a chain of `createChildSpan` calls starting from
`s`, returning the deepest span together with all emitted exporter events. -/
def chainChildren (s : NoOpAISpan) : List ChildSpanOptions → NoOpAISpan × List AITracingEvent
  | [] => (s, [])
  | o :: rest =>
    let c := s.createChildSpan o
    let d := chainChildren c.1 rest
    (d.1, c.2 ++ d.2)

/-- **C5.** `createChildSpan` on a no-op span returns another no-op span whose
`parent` is the calling span and whose `trace` is the calling span's `trace`,
emitting no exporter event; transitively, any chain of child creations below a
no-op span yields no-op spans sharing the same `trace` and produces zero
exporter events. -/
theorem noOpSpan_createChildSpan_propagates
    (s : NoOpAISpan) (o : ChildSpanOptions) (l : List ChildSpanOptions) :
    (s.createChildSpan o).1.parent = some s
    ∧ (s.createChildSpan o).1.trace = s.trace
    ∧ (s.createChildSpan o).2 = []
    ∧ (chainChildren s l).2 = []
    ∧ (chainChildren s l).1.trace = s.trace := by
  refine ⟨rfl, ?_, rfl, ?_, ?_⟩
  · exact NoOpAISpan.trace_of_parent_some rfl
  · induction l generalizing s with
    | nil => rfl
    | cons hd tl ih =>
      simp only [chainChildren, NoOpAISpan.createChildSpan, List.nil_append]
      exact ih _
  · induction l generalizing s with
    | nil => rfl
    | cons hd tl ih =>
      have hstep : ((s.createChildSpan hd).1).trace = s.trace :=
        NoOpAISpan.trace_of_parent_some rfl
      calc (chainChildren s (hd :: tl)).1.trace
          = (chainChildren (s.createChildSpan hd).1 tl).1.trace := rfl
        _ = ((s.createChildSpan hd).1).trace := ih ((s.createChildSpan hd).1)
        _ = s.trace := hstep

-- ============================================================================
-- Langfuse exporter (`observability/langfuse/src/ai-tracing.ts`)
-- ============================================================================

/-- A backend-native Langfuse object handle: a `LangfuseTraceClient`, a
`LangfuseSpanClient` or a `LangfuseGenerationClient`, identified by the id
the exporter passed when creating it. -/
inductive LangfuseHandle : Type where
  | traceH (id : String) : LangfuseHandle
  | spanH (id : String) : LangfuseHandle
  | generationH (id : String) : LangfuseHandle
deriving DecidableEq

/-- The per-trace record of `LangfuseExporter.traceMap`: the Langfuse trace
object plus the map from `span.id` to the Langfuse span/generation created
for it. -/
structure TraceData where
  trace : LangfuseHandle
  spans : List (String × LangfuseHandle)
deriving DecidableEq

/-- The mutable state of a `LangfuseExporter`: its `traceMap`. -/
structure ExporterState where
  traceMap : List (String × TraceData)
deriving DecidableEq

/-- Attribute lookup `span.metadata.attributes?.key`. -/
def attrGet (attributes : Option (List (String × JSValue))) (key : String) : Option JSValue :=
  match attributes with
  | none => none
  | some m => mapGet? m key

/-- Payload of `this.client.trace({...})` for a root span. -/
structure LangfuseTraceData where
  id : String
  name : String
  userId : Option JSValue
  sessionId : Option JSValue
  tags : Option (List String)
  input : Option JSValue
  metadata : List (String × JSValue)

/-- Builds the argument of `this.client.trace` in `handleSpanStarted`. -/
def traceCreateData (span : SpanSnapshot) : LangfuseTraceData :=
  { id := span.traceRefId
  , name := span.name
  , userId := attrGet span.metadata.attributes "userId"
  , sessionId := attrGet span.metadata.attributes "sessionId"
  , tags := span.metadata.tags
  , input := span.input
  , metadata := sanitizeMetadata span.metadata.attributes }

/-- `extractTypeSpecificMetadata`: the type-discriminating extra fields added
to the generic metadata payload; an entry with value `none` models a key
spread in with value `undefined`.  The `llm_generation` and `generic` cases
fall through the `switch` and contribute nothing. -/
def extractTypeSpecificMetadata (span : SpanSnapshot) : List (String × Option JSValue) :=
  let metadata := span.metadata
  match span.type with
  | AISpanType.agent_run =>
      [("agentId", metadata.agentId.map JSValue.str),
       ("availableTools", metadata.availableTools.map (fun ts => JSValue.arr (ts.map JSValue.str))),
       ("maxSteps", metadata.maxSteps.map JSValue.num),
       ("currentStep", metadata.currentStep)]
  | AISpanType.tool_call =>
      [("toolId", metadata.toolId.map JSValue.str),
       ("toolType", metadata.toolType),
       ("success", metadata.success.map JSValue.bool)]
  | AISpanType.mcp_tool_call =>
      [("toolName", metadata.toolId.map JSValue.str),
       ("mcpServer", metadata.mcpServer.map JSValue.str),
       ("serverVersion", metadata.serverVersion.map JSValue.str),
       ("success", metadata.success.map JSValue.bool)]
  | AISpanType.workflow_run =>
      [("workflowId", metadata.workflowId.map JSValue.str),
       ("status", metadata.status.map JSValue.str)]
  | AISpanType.workflow_step =>
      [("stepId", metadata.stepId.map JSValue.str),
       ("status", metadata.status.map JSValue.str)]
  | _ => []

/-- The generic metadata payload
`{ spanType: span.type, ...sanitizeMetadata(attributes), ...extractTypeSpecificMetadata(span) }`,
as an entry list in spread order (later entries override earlier ones on key
collision). -/
def payloadMetadata (span : SpanSnapshot) : List (String × Option JSValue) :=
  ("spanType", some (JSValue.str span.type.toStr))
    :: (sanitizeMetadata span.metadata.attributes).map (fun kv => (kv.1, some kv.2))
    ++ extractTypeSpecificMetadata span

/-- The `usage` payload forwarded to Langfuse for LLM generations. -/
structure UsagePayload where
  promptTokens : Option Int
  completionTokens : Option Int
  totalTokens : Option Int
deriving DecidableEq

/-- The `modelParameters` payload forwarded to Langfuse. -/
structure ModelParametersPayload where
  temperature : Option JSValue
  maxTokens : Option JSValue
  topP : Option JSValue
  frequencyPenalty : Option JSValue
  presencePenalty : Option JSValue
  stop : Option (List String)

/-- Payload of `parent.generation({...})` in `createLangfuseGeneration`. -/
structure LangfuseGenerationData where
  id : String
  name : String
  model : Option String
  modelParameters : Option ModelParametersPayload
  input : Option JSValue
  output : Option JSValue
  usage : Option UsagePayload
  metadata : List (String × Option JSValue)
  tags : Option (List String)

/-- Builds the argument of `parent.generation` in `createLangfuseGeneration`. -/
def generationCreateData (span : SpanSnapshot) : LangfuseGenerationData :=
  let metadata := span.metadata
  { id := span.id
  , name := span.name
  , model := metadata.model
  , modelParameters := metadata.parameters.map (fun p =>
      { temperature := p.temperature, maxTokens := p.maxTokens, topP := p.topP,
        frequencyPenalty := p.frequencyPenalty, presencePenalty := p.presencePenalty,
        stop := p.stop })
  , input := span.input
  , output := span.output
  , usage := metadata.usage.map (fun u =>
      { promptTokens := u.promptTokens, completionTokens := u.completionTokens,
        totalTokens := u.totalTokens })
  , metadata :=
      [("provider", metadata.provider.map JSValue.str),
       ("resultType", metadata.resultType.map JSValue.str),
       ("streaming", metadata.streaming.map JSValue.bool)]
      ++ (sanitizeMetadata metadata.attributes).map (fun kv => (kv.1, some kv.2))
  , tags := metadata.tags }

/-- Payload of `parent.span({...})` in `createLangfuseSpan`. -/
structure LangfuseSpanData where
  id : String
  name : String
  input : Option JSValue
  output : Option JSValue
  metadata : List (String × Option JSValue)
  tags : Option (List String)

/-- Builds the argument of `parent.span` in `createLangfuseSpan`. -/
def spanCreateData (span : SpanSnapshot) : LangfuseSpanData :=
  { id := span.id
  , name := span.name
  , input := span.input
  , output := span.output
  , metadata := payloadMetadata span
  , tags := span.metadata.tags }

/-- Payload of `langfuseObject.update(...)` built by `buildUpdateData`. -/
structure LangfuseUpdateData where
  metadata : List (String × Option JSValue)
  tags : Option (List String)
  input : Option JSValue
  output : Option JSValue
  usage : Option UsagePayload

/-- `buildUpdateData`: the base payload (metadata and tags) plus input/output,
and additionally the token usage for `LLM_GENERATION` spans. -/
def buildUpdateData (span : SpanSnapshot) : LangfuseUpdateData :=
  if span.type = AISpanType.llm_generation then
    { metadata := payloadMetadata span
    , tags := span.metadata.tags
    , input := span.input
    , output := span.output
    , usage := span.metadata.usage.map (fun u =>
        { promptTokens := u.promptTokens, completionTokens := u.completionTokens,
          totalTokens := u.totalTokens }) }
  else
    { metadata := payloadMetadata span
    , tags := span.metadata.tags
    , input := span.input
    , output := span.output
    , usage := none }

/-- Payload of `langfuseObject.end(...)` built by `buildEndData`. -/
structure LangfuseEndData where
  endTime : Option Nat
  output : Option JSValue
  metadata : List (String × Option JSValue)
  tags : Option (List String)
  level : String
  statusMessage : Option String

/-- `buildEndData`: the base payload (endTime, output, metadata, tags) plus
`level: 'ERROR'` and `statusMessage: span.errorInfo.message` when the span
carries `errorInfo`, and `level: 'DEFAULT'` (no status message) otherwise. -/
def buildEndData (span : SpanSnapshot) : LangfuseEndData :=
  match span.errorInfo with
  | some e =>
    { endTime := span.endTime, output := span.output,
      metadata := payloadMetadata span, tags := span.metadata.tags,
      level := "ERROR", statusMessage := some e.message }
  | none =>
    { endTime := span.endTime, output := span.output,
      metadata := payloadMetadata span, tags := span.metadata.tags,
      level := "DEFAULT", statusMessage := none }

/-- A call made to the Langfuse backend client, recorded by the embedding in
the order the exporter issues it. -/
inductive BackendCall : Type where
  | traceCall (data : LangfuseTraceData) : BackendCall
  | spanCall (parent : LangfuseHandle) (data : LangfuseSpanData) : BackendCall
  | generationCall (parent : LangfuseHandle) (data : LangfuseGenerationData) : BackendCall
  | updateCall (target : LangfuseHandle) (data : LangfuseUpdateData) : BackendCall
  | endCall (target : LangfuseHandle) (data : LangfuseEndData) : BackendCall
  | traceUpdate (target : LangfuseHandle) (output : Option JSValue) : BackendCall
  | flushCall : BackendCall

/-- `createLangfuseSpan`: looks up the span's trace in `traceMap` (returning
without effect when absent), picks the parent backend object — the parent's
handle when `span.parent` exists and its id is in the per-trace span map, the
trace handle otherwise — issues `parent.span({...})` and records the new
handle under `span.id`. -/
def createLangfuseSpan (st : ExporterState) (span : SpanSnapshot) :
    ExporterState × List BackendCall :=
  match mapGet? st.traceMap span.traceRefId with
  | none => (st, [])
  | some traceData =>
    let parent : LangfuseHandle :=
      match span.parentId with
      | some pid =>
        match mapGet? traceData.spans pid with
        | some h => h
        | none => traceData.trace
      | none => traceData.trace
    let langfuseSpan := LangfuseHandle.spanH span.id
    ({ traceMap := mapSet st.traceMap span.traceRefId
        { traceData with spans := mapSet traceData.spans span.id langfuseSpan } },
     [BackendCall.spanCall parent (spanCreateData span)])

/-- `createLangfuseGeneration`: same structure as `createLangfuseSpan` but
issues `parent.generation({...})`. -/
def createLangfuseGeneration (st : ExporterState) (span : SpanSnapshot) :
    ExporterState × List BackendCall :=
  match mapGet? st.traceMap span.traceRefId with
  | none => (st, [])
  | some traceData =>
    let parent : LangfuseHandle :=
      match span.parentId with
      | some pid =>
        match mapGet? traceData.spans pid with
        | some h => h
        | none => traceData.trace
      | none => traceData.trace
    let generation := LangfuseHandle.generationH span.id
    ({ traceMap := mapSet st.traceMap span.traceRefId
        { traceData with spans := mapSet traceData.spans span.id generation } },
     [BackendCall.generationCall parent (generationCreateData span)])

/-- `handleSpanStarted`: for a root span, first creates the Langfuse trace
object and registers it in `traceMap` under `span.trace.id` with an empty
span map; then creates the Langfuse generation (for `LLM_GENERATION` spans)
or span (for all other types). -/
def handleSpanStarted (st : ExporterState) (span : SpanSnapshot) :
    ExporterState × List BackendCall :=
  let rootStep : ExporterState × List BackendCall :=
    if span.isRootSpan then
      ({ traceMap := mapSet st.traceMap span.traceRefId
          { trace := LangfuseHandle.traceH span.traceRefId, spans := [] } },
       [BackendCall.traceCall (traceCreateData span)])
    else (st, [])
  if span.type = AISpanType.llm_generation then
    let r := createLangfuseGeneration rootStep.1 span
    (r.1, rootStep.2 ++ r.2)
  else
    let r := createLangfuseSpan rootStep.1 span
    (r.1, rootStep.2 ++ r.2)

/-- `handleSpanUpdated`: looks up the trace and the span's handle (returning
without effect when either is absent) and issues `langfuseObject.update`. -/
def handleSpanUpdated (st : ExporterState) (span : SpanSnapshot) :
    ExporterState × List BackendCall :=
  match mapGet? st.traceMap span.traceRefId with
  | none => (st, [])
  | some traceData =>
    match mapGet? traceData.spans span.id with
    | none => (st, [])
    | some langfuseObject =>
      (st, [BackendCall.updateCall langfuseObject (buildUpdateData span)])

/-- `handleSpanEnded`: looks up the trace and the span's handle (returning
without effect when either is absent), issues `langfuseObject.end`; for a
root span it additionally pushes the root's output to the Langfuse trace
object and deletes the trace's entire entry from `traceMap`. -/
def handleSpanEnded (st : ExporterState) (span : SpanSnapshot) :
    ExporterState × List BackendCall :=
  match mapGet? st.traceMap span.traceRefId with
  | none => (st, [])
  | some traceData =>
    match mapGet? traceData.spans span.id with
    | none => (st, [])
    | some langfuseObject =>
      if span.isRootSpan then
        ({ traceMap := mapDelete st.traceMap span.traceRefId },
         [BackendCall.endCall langfuseObject (buildEndData span),
          BackendCall.traceUpdate traceData.trace span.output])
      else
        (st, [BackendCall.endCall langfuseObject (buildEndData span)])

/-- `exportEvent`: dispatches on the event type and, in realtime mode,
flushes after every event. -/
def exportEvent (realtime : Bool) (st : ExporterState) (event : AITracingEvent) :
    ExporterState × List BackendCall :=
  let r :=
    match event with
    | AITracingEvent.span_started span => handleSpanStarted st span
    | AITracingEvent.span_updated span => handleSpanUpdated st span
    | AITracingEvent.span_ended span => handleSpanEnded st span
  if realtime then (r.1, r.2 ++ [BackendCall.flushCall]) else r


-- Helper lemmas: creating a Langfuse span/generation registers a handle
-- under the span's id whenever the span's trace is tracked.

theorem createLangfuseSpan_registers (st : ExporterState) (span : SpanSnapshot)
    (td0 : TraceData) (h : mapGet? st.traceMap span.traceRefId = some td0) :
    ∃ td, mapGet? (createLangfuseSpan st span).1.traceMap span.traceRefId = some td
      ∧ mapHas td.spans span.id = true := by
  refine ⟨{ td0 with spans := mapSet td0.spans span.id (LangfuseHandle.spanH span.id) }, ?_, ?_⟩
  · simp only [createLangfuseSpan, h]
    exact mapGet?_set_self _ _ _
  · exact mapHas_set_self _ _ _

theorem createLangfuseGeneration_registers (st : ExporterState) (span : SpanSnapshot)
    (td0 : TraceData) (h : mapGet? st.traceMap span.traceRefId = some td0) :
    ∃ td, mapGet? (createLangfuseGeneration st span).1.traceMap span.traceRefId = some td
      ∧ mapHas td.spans span.id = true := by
  refine ⟨{ td0 with spans := mapSet td0.spans span.id (LangfuseHandle.generationH span.id) }, ?_, ?_⟩
  · simp only [createLangfuseGeneration, h]
    exact mapGet?_set_self _ _ _
  · exact mapHas_set_self _ _ _

/-- A concrete non-root span snapshot whose trace is not tracked. -/
def c2CexSpan : SpanSnapshot :=
  { id := "c1", name := "child", type := AISpanType.generic,
    traceRefId := "t1", parentId := some "r1" }

/-- Counterexample for C2 as stated: processing `span_started` for the
concrete non-root span `c2CexSpan` from an exporter state whose trace map is
empty leaves the state unchanged and issues no backend call, so no entry
mapping the span's id to a backend handle is established (the trace map has
no entry at all for the span's trace). -/
theorem spanStarted_untracked_child_establishes_no_entry :
    handleSpanStarted { traceMap := [] } c2CexSpan = ({ traceMap := [] }, [])
    ∧ mapGet? (handleSpanStarted { traceMap := [] } c2CexSpan).1.traceMap
        c2CexSpan.traceRefId = none := by
  exact ⟨rfl, rfl⟩

/-- **C2 (amended).** For every `span_started` event the exporter processes,
if the span is a root span, or its trace id is already tracked in the
exporter's trace map, then an entry mapping the span's id to a backend
span/generation handle is established in the per-trace span map; a
`span_started` for a non-root span whose trace is untracked establishes no
entry. -/
theorem spanStarted_establishes_entry_when_root_or_tracked
    (st : ExporterState) (span : SpanSnapshot)
    (h : span.isRootSpan = true ∨ mapHas st.traceMap span.traceRefId = true) :
    ∃ td, mapGet? (handleSpanStarted st span).1.traceMap span.traceRefId = some td
      ∧ mapHas td.spans span.id = true := by
  rcases h with hroot | htracked
  · unfold handleSpanStarted
    rw [hroot]
    simp only [if_true]
    by_cases htype : span.type = AISpanType.llm_generation
    · simpa [htype] using createLangfuseGeneration_registers
        { traceMap := mapSet st.traceMap span.traceRefId
            { trace := LangfuseHandle.traceH span.traceRefId, spans := [] } }
        span _ (mapGet?_set_self _ _ _)
    · simpa [htype] using createLangfuseSpan_registers
        { traceMap := mapSet st.traceMap span.traceRefId
            { trace := LangfuseHandle.traceH span.traceRefId, spans := [] } }
        span _ (mapGet?_set_self _ _ _)
  · obtain ⟨td0, htd0⟩ : ∃ td0, mapGet? st.traceMap span.traceRefId = some td0 := by
      unfold mapHas at htracked
      cases hg : mapGet? st.traceMap span.traceRefId with
      | none => simp [hg] at htracked
      | some td0 => exact ⟨td0, rfl⟩
    unfold handleSpanStarted
    by_cases hroot : span.isRootSpan
    · rw [if_pos hroot]
      by_cases htype : span.type = AISpanType.llm_generation
      · simpa [htype] using createLangfuseGeneration_registers
          { traceMap := mapSet st.traceMap span.traceRefId
              { trace := LangfuseHandle.traceH span.traceRefId, spans := [] } }
          span _ (mapGet?_set_self _ _ _)
      · simpa [htype] using createLangfuseSpan_registers
          { traceMap := mapSet st.traceMap span.traceRefId
              { trace := LangfuseHandle.traceH span.traceRefId, spans := [] } }
          span _ (mapGet?_set_self _ _ _)
    · rw [if_neg hroot]
      by_cases htype : span.type = AISpanType.llm_generation
      · simpa [htype] using createLangfuseGeneration_registers st span td0 htd0
      · simpa [htype] using createLangfuseSpan_registers st span td0 htd0

/-- A concrete root span snapshot. -/
def rootSnap : SpanSnapshot :=
  { id := "r1", name := "root", type := AISpanType.agent_run, traceRefId := "t1" }

/-- Witness for the amended C2: processing `span_started` for the concrete
root span `rootSnap` from the empty exporter state establishes an entry for
its id in the per-trace span map. -/
theorem spanStarted_establishes_entry_witness :
    ∃ td, mapGet? (handleSpanStarted { traceMap := [] } rootSnap).1.traceMap
        rootSnap.traceRefId = some td
      ∧ mapHas td.spans rootSnap.id = true :=
  spanStarted_establishes_entry_when_root_or_tracked { traceMap := [] } rootSnap
    (Or.inl rfl)

/-- **C3.** When the exporter processes `span_ended` for a root span whose
trace is tracked (with `h` the backend handle recorded for that span), it ends
the backend object, pushes the root span's output to the backend trace object
and deletes the trace's entire entry — including every descendant span handle
stored under it — from `traceMap`, whose entry for that trace is gone
afterwards. -/
theorem spanEnded_root_cleans_trace
    (st : ExporterState) (span : SpanSnapshot) (td : TraceData) (h : LangfuseHandle)
    (hroot : span.isRootSpan = true)
    (htd : mapGet? st.traceMap span.traceRefId = some td)
    (hh : mapGet? td.spans span.id = some h) :
    handleSpanEnded st span =
      ({ traceMap := mapDelete st.traceMap span.traceRefId },
       [BackendCall.endCall h (buildEndData span),
        BackendCall.traceUpdate td.trace span.output])
    ∧ mapGet? (mapDelete st.traceMap span.traceRefId) span.traceRefId = none := by
  constructor
  · simp only [handleSpanEnded, htd, hh, hroot, if_true]
  · exact mapGet?_delete_self _ _

/-- A concrete exporter state tracking trace `t1` with recorded handles for
the root span `r1` and a child span `c1`. -/
def c3State : ExporterState :=
  { traceMap := [("t1",
      { trace := LangfuseHandle.traceH "t1",
        spans := [("r1", LangfuseHandle.spanH "r1"), ("c1", LangfuseHandle.spanH "c1")] })] }

/-- Witness for C3: ending the concrete root span `rootSnap` in state
`c3State` ends its backend object, pushes the output to the trace object and
removes the whole trace entry (the child handle `c1` with it), emptying the
trace map. -/
theorem spanEnded_root_cleans_trace_witness :
    handleSpanEnded c3State rootSnap =
      ({ traceMap := mapDelete c3State.traceMap rootSnap.traceRefId },
       [BackendCall.endCall (LangfuseHandle.spanH "r1") (buildEndData rootSnap),
        BackendCall.traceUpdate (LangfuseHandle.traceH "t1") rootSnap.output])
    ∧ mapGet? (mapDelete c3State.traceMap rootSnap.traceRefId) rootSnap.traceRefId = none :=
  spanEnded_root_cleans_trace c3State rootSnap
    { trace := LangfuseHandle.traceH "t1",
      spans := [("r1", LangfuseHandle.spanH "r1"), ("c1", LangfuseHandle.spanH "c1")] }
    (LangfuseHandle.spanH "r1") rfl rfl rfl

/-- **C7.** When the exporter creates a backend object for an incoming span
whose trace is tracked, the parent backend object is the parent span's
recorded handle when the span has a parent whose id is present in the
per-trace span map, and the trace handle in every other case (no parent, or
parent id absent from the map) — for both the span and the generation
creation paths. -/
theorem createLangfuse_parent_routing
    (st : ExporterState) (span : SpanSnapshot) (td : TraceData)
    (htd : mapGet? st.traceMap span.traceRefId = some td) :
    (∀ pid h, span.parentId = some pid → mapGet? td.spans pid = some h →
        (createLangfuseSpan st span).2 = [BackendCall.spanCall h (spanCreateData span)]
        ∧ (createLangfuseGeneration st span).2 =
            [BackendCall.generationCall h (generationCreateData span)])
    ∧ ((span.parentId = none ∨ ∃ pid, span.parentId = some pid ∧ mapGet? td.spans pid = none) →
        (createLangfuseSpan st span).2 = [BackendCall.spanCall td.trace (spanCreateData span)]
        ∧ (createLangfuseGeneration st span).2 =
            [BackendCall.generationCall td.trace (generationCreateData span)]) := by
  constructor
  · intro pid h hpid hh
    constructor
    · simp only [createLangfuseSpan, htd, hpid, hh]
    · simp only [createLangfuseGeneration, htd, hpid, hh]
  · intro hcase
    rcases hcase with hnone | ⟨pid, hpid, habsent⟩
    · constructor
      · simp only [createLangfuseSpan, htd, hnone]
      · simp only [createLangfuseGeneration, htd, hnone]
    · constructor
      · simp only [createLangfuseSpan, htd, hpid, habsent]
      · simp only [createLangfuseGeneration, htd, hpid, habsent]

/-- A concrete child span snapshot of the root `r1` in trace `t1`. -/
def childSnap : SpanSnapshot :=
  { id := "c2", name := "child2", type := AISpanType.generic,
    traceRefId := "t1", parentId := some "r1" }

/-- A concrete child span snapshot whose parent id is not recorded. -/
def orphanSnap : SpanSnapshot :=
  { id := "c3", name := "child3", type := AISpanType.generic,
    traceRefId := "t1", parentId := some "zz" }

/-- Witness for C7 in state `c3State`: a child whose parent `r1` is recorded
attaches to the parent's handle, and a child whose claimed parent `zz` is not
recorded falls back to the trace handle. -/
theorem createLangfuse_parent_routing_witness :
    ((createLangfuseSpan c3State childSnap).2 =
        [BackendCall.spanCall (LangfuseHandle.spanH "r1") (spanCreateData childSnap)]
      ∧ (createLangfuseGeneration c3State childSnap).2 =
          [BackendCall.generationCall (LangfuseHandle.spanH "r1") (generationCreateData childSnap)])
    ∧ ((createLangfuseSpan c3State orphanSnap).2 =
        [BackendCall.spanCall (LangfuseHandle.traceH "t1") (spanCreateData orphanSnap)]
      ∧ (createLangfuseGeneration c3State orphanSnap).2 =
          [BackendCall.generationCall (LangfuseHandle.traceH "t1") (generationCreateData orphanSnap)]) := by
  constructor
  · exact (createLangfuse_parent_routing c3State childSnap
      { trace := LangfuseHandle.traceH "t1",
        spans := [("r1", LangfuseHandle.spanH "r1"), ("c1", LangfuseHandle.spanH "c1")] }
      rfl).1 "r1" (LangfuseHandle.spanH "r1") rfl rfl
  · exact (createLangfuse_parent_routing c3State orphanSnap
      { trace := LangfuseHandle.traceH "t1",
        spans := [("r1", LangfuseHandle.spanH "r1"), ("c1", LangfuseHandle.spanH "c1")] }
      rfl).2 (Or.inr ⟨"zz", rfl, rfl⟩)

/-- **C9.** The end-call payload built for a span sets `level = "ERROR"` and
copies `errorInfo.message` as the status message exactly when the span
carries `errorInfo`, and otherwise uses `level = "DEFAULT"` with no status
message. -/
theorem buildEndData_error_level (span : SpanSnapshot) :
    (buildEndData span).level = (if span.errorInfo.isSome then "ERROR" else "DEFAULT")
    ∧ (buildEndData span).statusMessage = span.errorInfo.map ErrorInfo.message := by
  cases h : span.errorInfo with
  | none => simp [buildEndData, h]
  | some e => simp [buildEndData, h]

-- ============================================================================
-- AI Tracing Registry (`packages/core/src/ai-tracing/registry.ts`)
-- ============================================================================

/-- Modelled from the spec: sampling strategy of a tracing-instance
configuration — one of always, never, ratio(probability) or custom(predicate)
(the `MastraAITracing` base class in `base.ts` is not part of the sources;
its configuration surface is taken from the spec, which states that
`sampling` defaults to ALWAYS when unset, so a resolved configuration always
carries one of the four strategies).  The probability of a ratio strategy and
the user predicate of a custom strategy are carried opaquely. -/
inductive SamplingStrategy : Type where
  | alwaysStrategy : SamplingStrategy
  | neverStrategy : SamplingStrategy
  | ratioStrategy (probability : JSValue) : SamplingStrategy
  | customStrategy : SamplingStrategy

/-- The string value of `SamplingStrategy.type` (the `SamplingStrategyType`
enum members are string-valued: `'always'`, `'never'`, `'ratio'`, `'custom'`). -/
def SamplingStrategy.type : SamplingStrategy → String
  | .alwaysStrategy => "always"
  | .neverStrategy => "never"
  | .ratioStrategy _ => "ratio"
  | .customStrategy => "custom"

/-- The string value of the `SamplingStrategyType.NEVER` enum member. -/
def SamplingStrategyType.NEVER : String := "never"

/-- Modelled from the spec: the resolved configuration a tracing instance
reports through `getConfig()` — identifying labels plus the sampling
strategy (defaults already applied). -/
structure AITracingInstanceConfig where
  serviceName : String
  instanceName : String
  sampling : SamplingStrategy

/-- Modelled from the spec: a `MastraAITracing` instance, reduced to the
configuration surface the registry reads (`base.ts` is not part of the
sources; exporters and processors are irrelevant to the registry claims). -/
structure MastraAITracing where
  config : AITracingInstanceConfig

/-- Modelled from the spec: `MastraAITracing.getConfig()` returns the
instance's resolved configuration. -/
def MastraAITracing.getConfig (t : MastraAITracing) : AITracingInstanceConfig :=
  t.config

/-- `AITracingRegistry.register`: throws when the name is already registered
(before any mutation, so the instance map is untouched by a failed attempt),
and inserts the instance otherwise.  The thrown `Error` is modelled as
`Except.error` carrying the message
`AI Tracing instance '<name>' already registered`. -/
def AITracingRegistry.register (instances : List (String × MastraAITracing))
    (name : String) (inst : MastraAITracing) :
    Except String (List (String × MastraAITracing)) :=
  if mapHas instances name then
    Except.error ("AI Tracing instance \x27" ++ name ++ "\x27 already registered")
  else
    Except.ok (mapSet instances name inst)

/-- `AITracingRegistry.get` / the module-level `getAITracing`: looks the
instance up by name. -/
def getAITracing (instances : List (String × MastraAITracing)) (name : String) :
    Option MastraAITracing :=
  mapGet? instances name

/-- `hasAITracing`: true when an instance is registered under the name and
its configured sampling strategy type is not `NEVER`. -/
def hasAITracing (instances : List (String × MastraAITracing)) (name : String) : Bool :=
  match getAITracing instances name with
  | none => false
  | some tracing => tracing.getConfig.sampling.type ≠ SamplingStrategyType.NEVER

/-- **C8.** Registering an instance under a name that is already registered
fails with the conflict error and never inserts the second instance: after a
successful registration of `i1` under `name`, a second `register` of `i2`
under the same `name` returns the conflict error (throwing before any
mutation, so the map value is untouched) and lookup of `name` still returns
`i1`. -/
theorem registry_register_duplicate_fails
    (m : List (String × MastraAITracing)) (name : String)
    (i1 i2 : MastraAITracing) (r1 : List (String × MastraAITracing))
    (hok : AITracingRegistry.register m name i1 = Except.ok r1) :
    AITracingRegistry.register r1 name i2 =
      Except.error ("AI Tracing instance \x27" ++ name ++ "\x27 already registered")
    ∧ getAITracing r1 name = some i1 := by
  unfold AITracingRegistry.register at hok
  by_cases h : mapHas m name
  · simp [h] at hok
  · simp only [h, if_false, Bool.false_eq_true, Except.ok.injEq] at hok
    subst hok
    constructor
    · unfold AITracingRegistry.register
      rw [if_pos (mapHas_set_self m name i1)]
    · exact mapGet?_set_self m name i1

/-- A concrete tracing instance for the registry witnesses. -/
def regInstA : MastraAITracing :=
  { config := { serviceName := "svc", instanceName := "a",
                sampling := SamplingStrategy.alwaysStrategy } }

/-- A second concrete tracing instance competing for the name `a`. -/
def regInstB : MastraAITracing :=
  { config := { serviceName := "svc2", instanceName := "a",
                sampling := SamplingStrategy.neverStrategy } }

/-- Witness for C8: after registering `regInstA` under `a` in the empty
registry, registering `regInstB` under `a` fails with the conflict error and
lookup still returns `regInstA`. -/
theorem registry_register_duplicate_fails_witness :
    AITracingRegistry.register [("a", regInstA)] "a" regInstB =
      Except.error ("AI Tracing instance \x27a\x27 already registered")
    ∧ getAITracing [("a", regInstA)] "a" = some regInstA := by
  have h := registry_register_duplicate_fails [] "a" regInstA regInstB
    [("a", regInstA)] rfl
  exact h

/-- **C10.** `hasAITracing(name)` returns true iff a tracing instance is
registered under the name and its configured sampling strategy type is not
`'never'` (the function is a total pure read: it cannot throw and does not
modify the registry). -/
theorem hasAITracing_iff (instances : List (String × MastraAITracing)) (name : String) :
    hasAITracing instances name = true ↔
      ∃ t, getAITracing instances name = some t
        ∧ t.getConfig.sampling.type ≠ SamplingStrategyType.NEVER := by
  unfold hasAITracing
  cases h : getAITracing instances name with
  | none =>
    simp
  | some t =>
    simp only [Option.some.injEq]
    constructor
    · intro hne
      exact ⟨t, rfl, by simpa using hne⟩
    · rintro ⟨t', rfl, hne⟩
      simpa using hne

/-- Witness for C10: in a registry holding `regInstA` (sampling `always`)
under `a` and `regInstB` (sampling `never`) under `b`, `hasAITracing` is true
for `a` and false for `b` and for the unregistered `c`. -/
theorem hasAITracing_iff_witness :
    hasAITracing [("a", regInstA), ("b", regInstB)] "a" = true
    ∧ hasAITracing [("a", regInstA), ("b", regInstB)] "b" = false
    ∧ hasAITracing [("a", regInstA), ("b", regInstB)] "c" = false := by
  refine ⟨?_, ?_, ?_⟩
  · exact (hasAITracing_iff [("a", regInstA), ("b", regInstB)] "a").mpr
      ⟨regInstA, rfl, by simp [MastraAITracing.getConfig, regInstA,
        SamplingStrategy.type, SamplingStrategyType.NEVER]⟩
  · rfl
  · rfl
